import Mathlib

/-
Verification of the stratisd control-plane core: a shallow embedding of
src/dbus_api.rs and src/sim_engine.rs.

The dbus crate's message values are embedded as an inductive `MessageItem`
(only the variants the two files use), a `Message` carries the list of items
delivered with the call (`Message::get_items`), a method reply is the list of
`MessageItem`s appended to `m.method_return()`, and `MethodResult` is
`Except MethodErr (List (List MessageItem))` mirroring
`Result<Vec<Message>, MethodErr>`.

Modules of the repository that are referenced but not present as source
(`types`, `engine`, `dbus_consts`) are modelled from the spec; each such
definition carries a doc comment saying so.
-/

namespace Stratisd

/-- The dbus MessageItem variants used by dbus_api.rs: `Str`, `UInt16`,
`Int32` (the i32 literals appended to replies), `Array` (with its element
signature string), `Struct`, and `Bool` standing for any further variant a
caller could send (a wrongly typed argument). -/
inductive MessageItem : Type where
  | str : String → MessageItem
  | uint16 : Nat → MessageItem
  | int32 : Int → MessageItem
  | bool : Bool → MessageItem
  | array : List MessageItem → String → MessageItem
  | struct : List MessageItem → MessageItem

/-- An inbound dbus method-call message: `get_items` is the field `items`. -/
structure Message : Type where
  items : List MessageItem

/-- dbus::tree::MethodErr as produced by the handlers: `MethodErr::no_arg()`
for a missing argument, `MethodErr::invalid_arg(&i)` for a wrongly typed one. -/
inductive MethodErr : Type where
  | noArg : MethodErr
  | invalidArg : MessageItem → MethodErr

/-- A reply message is the list of items appended to `m.method_return()`. -/
abbrev Reply := List MessageItem

/-- dbus::tree::MethodResult = Result<Vec<Message>, MethodErr>. -/
abbrev MethodResult := Except MethodErr (List Reply)

/-- `m.method_return()`: a fresh reply with no arguments appended yet. -/
def Message.methodReturn (_ : Message) : Reply := []

/-- `.append1(a)` on a reply. -/
def append1 (r : Reply) (a : MessageItem) : Reply := r ++ [a]

/-- `.append2(a, b)` on a reply. -/
def append2 (r : Reply) (a b : MessageItem) : Reply := r ++ [a, b]

/-- `.append3(a, b, c)` on a reply. -/
def append3 (r : Reply) (a b c : MessageItem) : Reply := r ++ [a, b, c]

/-- `Vec::pop`: removes and returns the LAST element, with the remaining
vector. -/
def vecPop {α : Type} : List α → Option (α × List α)
  | [] => none
  | x :: xs =>
    match vecPop xs with
    | none => some (x, [])
    | some (y, ys) => some (y, x :: ys)

/-- `i.inner::<u16>()`: succeeds exactly on the `UInt16` variant. -/
def MessageItem.innerU16 : MessageItem → Option Nat
  | .uint16 v => some v
  | _ => none

/-- `i.inner::<&str>()`: succeeds exactly on the `Str` variant. -/
def MessageItem.innerStr : MessageItem → Option String
  | .str s => some s
  | _ => none

/-- Modelled from the spec: the `types` module (StratisError) is not under
src/. Constructors follow the error taxonomy of spec section 7, plus the
`StratisError::Dbus` transport variant that dbus_api.rs constructs. -/
inductive StratisError : Type where
  | nameConflict : StratisError
  | notFound : StratisError
  | invalidDevice : StratisError
  | deviceAlreadyOwned : StratisError
  | unsupportedRaidLevel : StratisError
  | alreadyDestroyed : StratisError
  | dbus : String → String → StratisError

/-- StratisResult<T> = Result<T, StratisError>. -/
abbrev StratisResult (α : Type) := Except StratisError α

/-- Modelled from the spec: the `dbus_consts` module is not under src/.
`STRATIS_OK` is the numeric code 0 meaning success, appended `as i32`. -/
def STRATIS_OK : Int := 0

/-- `fn listpools(m: &Message)`: builds five hard-coded replies on fresh
`m.method_return()` values that are immediately discarded, then returns a
single reply with nothing appended. The engine is not a parameter at all. -/
def listpools (m : Message) : MethodResult :=
  let _ := append2 m.methodReturn (.str "pool1") (.int32 STRATIS_OK)
  let _ := append2 m.methodReturn (.str "pool2") (.int32 STRATIS_OK)
  let _ := append2 m.methodReturn (.str "pool3") (.int32 STRATIS_OK)
  let _ := append2 m.methodReturn (.str "pool4") (.int32 STRATIS_OK)
  let _ := append2 m.methodReturn (.str "pool5") (.int32 STRATIS_OK)
  .ok [m.methodReturn]

/-- `fn createpool(m: &Message, engine: Rc<RefCell<Engine>>)`.
The engine trait object is embedded as the function
`engine_create_pool : String → List String → Nat → Except StratisError P`
(the call site invokes `engine.borrow().create_pool(&name, &[], raid_level)`
and its `StratisResult<Box<Pool>>` result is bound to `result` and never
used; `P` stands for the boxed pool type). Arguments are popped from the END
of `get_items()` in the order raid_level, devs, name; the reply is the fixed
triple `("/dbus/newpool/path", 0, "Ok")`, and the device list forwarded to
the engine is the literal empty slice `&[]`. -/
def createpool {P : Type} (m : Message)
    (engine_create_pool : String → List String → Nat → Except StratisError P) :
    MethodResult :=
  let items := m.items
  if items.length < 1 then
    .error .noArg
  else
    match vecPop items with
    | none => .error .noArg
    | some (i, items) =>
      match i.innerU16 with
      | none => .error (.invalidArg i)
      | some raid_level =>
        match vecPop items with
        | none => .error .noArg
        | some (d, items) =>
          match d with
          | .array _x _sig =>
            match vecPop items with
            | none => .error .noArg
            | some (j, _items) =>
              match j.innerStr with
              | none => .error (.invalidArg j)
              | some name =>
                let _result := engine_create_pool name [] raid_level
                .ok [append3 m.methodReturn
                      (.str "/dbus/newpool/path") (.int32 0) (.str "Ok")]
          | x => .error (.invalidArg x)

/-- `fn destroypool(m: &Message)`: ignores the message arguments, consults no
engine, and returns the fixed triple. -/
def destroypool (m : Message) : MethodResult :=
  .ok [append3 m.methodReturn (.str "/dbus/pool/path") (.int32 0) (.str "Ok")]

/-- `fn getpoolobjectpath(m: &Message)`: fixed triple, no lookup. -/
def getpoolobjectpath (m : Message) : MethodResult :=
  .ok [append3 m.methodReturn (.str "/dbus/pool/path") (.int32 0) (.str "Ok")]

/-- `fn getvolumeobjectpath(m: &Message)`: fixed triple, no lookup. -/
def getvolumeobjectpath (m : Message) : MethodResult :=
  .ok [append3 m.methodReturn (.str "/dbus/volume/path") (.int32 0) (.str "Ok")]

/-- `fn getdevobjectpath(m: &Message)`: fixed triple, no lookup. -/
def getdevobjectpath (m : Message) : MethodResult :=
  .ok [append3 m.methodReturn (.str "/dbus/dev/path") (.int32 0) (.str "Ok")]

/-- `fn getcacheobjectpath(m: &Message)`: fixed triple, no lookup. -/
def getcacheobjectpath (m : Message) : MethodResult :=
  .ok [append3 m.methodReturn (.str "/dbus/cache/path") (.int32 0) (.str "Ok")]

/-- Modelled from the spec: `dbus_consts`'s StratisErrorEnum and
StratisRaidType are not under src/. Spec section 4.4 describes both catalogs
as ordered immutable tables whose entries carry a symbolic name, a numeric
id (u16) and a description; the iterator yields them in declaration order.
The handlers below are therefore parameterized by such a table. -/
structure CatalogEntry : Type where
  name : String
  id : Nat
  description : String

/-- The `(sqs)` struct built for one catalog entry:
`(format name, get_error_int, get_error_string)`. -/
def catalogEntryItem (e : CatalogEntry) : MessageItem :=
  .struct [.str e.name, .uint16 e.id, .str e.description]

/-- `fn geterrorcodes(m: &Message)`: iterates the error catalog in order,
pushing one `(sqs)` struct per entry into `msg_vec`, and returns the array in
a single reply. -/
def geterrorcodes (catalog : List CatalogEntry) (m : Message) : MethodResult :=
  let msg_vec := catalog.foldl
    (fun acc error =>
      let entry := [MessageItem.str error.name, MessageItem.uint16 error.id,
                    MessageItem.str error.description]
      acc ++ [MessageItem.struct entry]) []
  let item_array := MessageItem.array msg_vec "(sqs)"
  .ok [append1 m.methodReturn item_array]

/-- `fn getraidlevels(m: &Message)`: same shape over the raid catalog. -/
def getraidlevels (catalog : List CatalogEntry) (m : Message) : MethodResult :=
  let msg_vec := catalog.foldl
    (fun acc raid_type =>
      let entry := [MessageItem.str raid_type.name, MessageItem.uint16 raid_type.id,
                    MessageItem.str raid_type.description]
      acc ++ [MessageItem.struct entry]) []
  let item_array := MessageItem.array msg_vec "(sqs)"
  .ok [append1 m.methodReturn item_array]

/-- `struct SimPool { tmp: u32 }` from sim_engine.rs. -/
structure SimPool : Type where
  tmp : Nat

/-- `SimPool::new()`: `SimPool { tmp: 4 }`. -/
def SimPool.new : SimPool := { tmp := 4 }

/-- `struct SimEngine {}`: the simulated engine holds no state at all. -/
structure SimEngine : Type

/-- `SimEngine::new()`. -/
def SimEngine.new : SimEngine := {}

/-- `impl Engine for SimEngine`: `create_pool` takes `&self` (no mutation is
possible), prints, and unconditionally returns `Ok(Box::new(SimPool::new()))`. -/
def SimEngine.create_pool (_self : SimEngine) (_name : String)
    (_blockdev_paths : List String) : StratisResult SimPool :=
  .ok SimPool.new

/-- `SimPool::add_blockdev(&mut self, path)`: the `&mut self` receiver is
embedded as returning the updated pool next to the result; the body mutates
nothing and unconditionally returns `Ok(())`. -/
def SimPool.add_blockdev (self : SimPool) (_path : String) :
    StratisResult Unit × SimPool :=
  (.ok (), self)

/-- `SimPool::add_cachedev(&mut self, path)`: unconditionally `Ok(())`. -/
def SimPool.add_cachedev (self : SimPool) (_path : String) :
    StratisResult Unit × SimPool :=
  (.ok (), self)

/-- `SimPool::destroy(&mut self)`: unconditionally `Ok(())`; SimPool carries
no lifecycle state that could record destruction. -/
def SimPool.destroy (self : SimPool) : StratisResult Unit × SimPool :=
  (.ok (), self)

/-- An engine trait object whose create_pool always succeeds, used to
instantiate the dispatcher in concrete evaluations. -/
def okEngine : String → List String → Nat → Except StratisError SimPool :=
  fun _ _ _ => .ok SimPool.new

/-- The fold that accumulates catalog structs equals mapping
`catalogEntryItem` over the table, appended after the accumulator: the reply
array lists the full table in declaration order. -/
theorem catalog_fold_eq_map (l : List CatalogEntry) (acc : List MessageItem) :
    l.foldl
      (fun acc e =>
        let entry := [MessageItem.str e.name, MessageItem.uint16 e.id,
                      MessageItem.str e.description]
        acc ++ [MessageItem.struct entry]) acc
      = acc ++ l.map catalogEntryItem := by
  induction l generalizing acc with
  | nil => simp
  | cons x xs ih => simp [List.foldl, ih, catalogEntryItem]

end Stratisd

namespace Stratisd

/-- C1: the dispatcher reply does not reflect the Engine outcome. At the
failing input — a well-typed CreatePool request served by an engine whose
create_pool fails with NameConflict — createpool still replies the success
triple ("/dbus/newpool/path", 0, "Ok"); and destroypool, which never consults
any engine, replies its own fixed success triple. -/
theorem C1_reply_ignores_engine_outcome :
    createpool ⟨[.str "p", .array [] "s", .uint16 0]⟩
        (fun _ _ _ => (.error StratisError.nameConflict : Except StratisError SimPool))
      = .ok [[.str "/dbus/newpool/path", .int32 0, .str "Ok"]]
    ∧ destroypool ⟨[.str "p"]⟩
      = .ok [[.str "/dbus/pool/path", .int32 0, .str "Ok"]] :=
  ⟨rfl, rfl⟩

/-- C2: path round-tripping is broken. createpool for a fresh valid name
returns object path "/dbus/newpool/path", but getpoolobjectpath for the same
name returns the different literal "/dbus/pool/path", and listpools returns a
reply with no pool names at all, so the name does not occur exactly once. -/
theorem C2_create_pool_roundtrip_broken :
    createpool ⟨[.str "mypool", .array [.str "/dev/sdb"] "s", .uint16 0]⟩ okEngine
      = .ok [[.str "/dbus/newpool/path", .int32 0, .str "Ok"]]
    ∧ getpoolobjectpath ⟨[.str "mypool"]⟩
      = .ok [[.str "/dbus/pool/path", .int32 0, .str "Ok"]]
    ∧ "/dbus/newpool/path" ≠ "/dbus/pool/path"
    ∧ listpools ⟨[.str "mypool"]⟩ = .ok [[]] :=
  ⟨rfl, rfl, by decide, rfl⟩

/-- C3: SimEngine keeps no registry, so create_pool succeeds for every engine
state, every name and every device list; in particular a repeated call with a
name that was already created succeeds instead of failing NameConflict. -/
theorem C3_create_pool_never_name_conflict :
    ∀ (s : SimEngine) (name : String) (blockdev_paths : List String),
      SimEngine.create_pool s name blockdev_paths = .ok SimPool.new :=
  fun _ _ _ => rfl

/-- C4: listpools ignores the engine entirely (the handler does not even
receive it) and returns, for every incoming message, one reply with no
arguments appended: the hard-coded pool1..pool5 appends act on discarded
temporaries, and no registered (name, path) pairs are reported. -/
theorem C4_listpools_ignores_engine_state :
    ∀ m : Message, listpools m = .ok [[]] :=
  fun _ => rfl

/-- C5: SimPool has no lifecycle state, and destroy always returns Ok leaving
the pool unchanged; hence a destroy following an earlier destroy also returns
Ok rather than failing AlreadyDestroyed, and no operation on a destroyed pool
can fail AlreadyDestroyed. -/
theorem C5_destroy_always_ok :
    ∀ p : SimPool, p.destroy = (.ok (), p) :=
  fun _ => rfl

/-- C6: add_blockdev always returns Ok and leaves the pool unchanged, for
every pool and every path; in particular adding a path that is already owned
(by this pool or any other) succeeds instead of failing DeviceAlreadyOwned. -/
theorem C6_add_blockdev_always_ok :
    ∀ (p : SimPool) (path : String), p.add_blockdev path = (.ok (), p) :=
  fun _ _ => rfl

/-- C7: object paths are reused across distinct entities. Creating two pools
with distinct names "a" and "b" yields byte-identical replies, both carrying
the single literal object path "/dbus/newpool/path". -/
theorem C7_object_path_reused_across_entities :
    createpool ⟨[.str "a", .array [] "s", .uint16 0]⟩ okEngine
      = createpool ⟨[.str "b", .array [] "s", .uint16 0]⟩ okEngine
    ∧ createpool ⟨[.str "a", .array [] "s", .uint16 0]⟩ okEngine
      = .ok [[.str "/dbus/newpool/path", .int32 0, .str "Ok"]] :=
  ⟨rfl, rfl⟩

/-- C8: for every catalog table and every pair of incoming messages,
geterrorcodes and getraidlevels each return one reply holding the full table
in declaration order as (name, id, description) structs, and repeated calls
return identical replies (the handlers are pure, so there are no side
effects). -/
theorem C8_catalogs_full_table_idempotent :
    ∀ (ecat rcat : List CatalogEntry) (m m2 : Message),
      geterrorcodes ecat m
        = .ok [[.array (ecat.map catalogEntryItem) "(sqs)"]]
      ∧ getraidlevels rcat m
        = .ok [[.array (rcat.map catalogEntryItem) "(sqs)"]]
      ∧ geterrorcodes ecat m = geterrorcodes ecat m2
      ∧ getraidlevels rcat m = getraidlevels rcat m2 := by
  intro ecat rcat m m2
  refine ⟨?_, ?_, rfl, rfl⟩
  · show Except.ok [append1 m.methodReturn (.array _ "(sqs)")] = _
    rw [catalog_fold_eq_map]
    rfl
  · show Except.ok [append1 m.methodReturn (.array _ "(sqs)")] = _
    rw [catalog_fold_eq_map]
    rfl

/-- C9 counterexample: not every RPC with a missing argument fails with an
argument error before reaching the Engine. A DestroyPool request whose
declared pool_name argument is missing (zero items) is accepted and answered
with the fixed success triple instead of an argument error. -/
theorem C9_counterexample_destroypool_missing_arg :
    destroypool ⟨[]⟩ = .ok [[.str "/dbus/pool/path", .int32 0, .str "Ok"]] :=
  rfl

/-- C9 (amended): for CreatePool, a request with a missing argument (fewer
than three items) or with three arguments of which any is wrongly typed
(name not a string, device list not an array, raid type not a uint16) fails
with an argument error (MethodErr) whose value is independent of the engine,
so Engine.create_pool is never invoked. -/
theorem C9_amended_createpool_validates_before_engine
    (items : List MessageItem)
    (h : items.length < 3 ∨
      ∃ a b c, items = [a, b, c] ∧
        (MessageItem.innerStr a = none ∨
         (∀ l s, b ≠ MessageItem.array l s) ∨
         MessageItem.innerU16 c = none)) :
    ∃ e : MethodErr,
      ∀ (P : Type) (f : String → List String → Nat → Except StratisError P),
        createpool (Message.mk items) f = .error e := by
  rcases h with h | ⟨a, b, c, rfl, hbad⟩
  · cases items with
    | nil => exact ⟨.noArg, fun P f => rfl⟩
    | cons a rest =>
      cases rest with
      | nil =>
        cases a with
        | str s => exact ⟨.invalidArg (.str s), fun P f => rfl⟩
        | uint16 v => exact ⟨.noArg, fun P f => rfl⟩
        | int32 v => exact ⟨.invalidArg (.int32 v), fun P f => rfl⟩
        | bool b => exact ⟨.invalidArg (.bool b), fun P f => rfl⟩
        | array l s => exact ⟨.invalidArg (.array l s), fun P f => rfl⟩
        | struct l => exact ⟨.invalidArg (.struct l), fun P f => rfl⟩
      | cons b rest2 =>
        cases rest2 with
        | nil =>
          cases b with
          | uint16 v =>
            cases a with
            | array l s => exact ⟨.noArg, fun P f => rfl⟩
            | str s => exact ⟨.invalidArg (.str s), fun P f => rfl⟩
            | uint16 w => exact ⟨.invalidArg (.uint16 w), fun P f => rfl⟩
            | int32 w => exact ⟨.invalidArg (.int32 w), fun P f => rfl⟩
            | bool c => exact ⟨.invalidArg (.bool c), fun P f => rfl⟩
            | struct l => exact ⟨.invalidArg (.struct l), fun P f => rfl⟩
          | str s => exact ⟨.invalidArg (.str s), fun P f => rfl⟩
          | int32 v => exact ⟨.invalidArg (.int32 v), fun P f => rfl⟩
          | bool c => exact ⟨.invalidArg (.bool c), fun P f => rfl⟩
          | array l s => exact ⟨.invalidArg (.array l s), fun P f => rfl⟩
          | struct l => exact ⟨.invalidArg (.struct l), fun P f => rfl⟩
        | cons c rest3 =>
          exfalso
          simp only [List.length_cons] at h
          omega
  · cases c with
    | uint16 v =>
      cases b with
      | array l s =>
        cases a with
        | str s0 =>
          exfalso
          rcases hbad with ha | hb | hc
          · simp [MessageItem.innerStr] at ha
          · exact hb l s rfl
          · simp [MessageItem.innerU16] at hc
        | uint16 w => exact ⟨.invalidArg (.uint16 w), fun P f => rfl⟩
        | int32 w => exact ⟨.invalidArg (.int32 w), fun P f => rfl⟩
        | bool d => exact ⟨.invalidArg (.bool d), fun P f => rfl⟩
        | array l2 s2 => exact ⟨.invalidArg (.array l2 s2), fun P f => rfl⟩
        | struct l2 => exact ⟨.invalidArg (.struct l2), fun P f => rfl⟩
      | str s => exact ⟨.invalidArg (.str s), fun P f => rfl⟩
      | uint16 w => exact ⟨.invalidArg (.uint16 w), fun P f => rfl⟩
      | int32 w => exact ⟨.invalidArg (.int32 w), fun P f => rfl⟩
      | bool d => exact ⟨.invalidArg (.bool d), fun P f => rfl⟩
      | struct l2 => exact ⟨.invalidArg (.struct l2), fun P f => rfl⟩
    | str s => exact ⟨.invalidArg (.str s), fun P f => rfl⟩
    | int32 w => exact ⟨.invalidArg (.int32 w), fun P f => rfl⟩
    | bool d => exact ⟨.invalidArg (.bool d), fun P f => rfl⟩
    | array l s => exact ⟨.invalidArg (.array l s), fun P f => rfl⟩
    | struct l2 => exact ⟨.invalidArg (.struct l2), fun P f => rfl⟩

/-- C9 witness: the amended theorem applied at a concrete three-argument
request whose name argument is a uint16 instead of a string. -/
theorem C9_amended_witness :
    ∃ e : MethodErr,
      ∀ (P : Type) (f : String → List String → Nat → Except StratisError P),
        createpool
          (Message.mk [.uint16 7, .array [] "s", .uint16 0]) f = .error e :=
  C9_amended_createpool_validates_before_engine
    [.uint16 7, .array [] "s", .uint16 0]
    (Or.inr ⟨.uint16 7, .array [] "s", .uint16 0, rfl, Or.inl rfl⟩)

/-- C10: for every well-typed CreatePool request (string name, array device
list with any elements and signature, uint16 raid type) and every engine
behavior of any pool type, the reply is the single fixed triple
("/dbus/newpool/path", 0, "Ok"): it is independent of the argument values,
of the device list contents, and of the result the engine returns. -/
theorem C10_createpool_fixed_reply :
    ∀ (name : String) (devs : List MessageItem) (sig : String) (raid : Nat)
      (P : Type) (f : String → List String → Nat → Except StratisError P),
      createpool ⟨[.str name, .array devs sig, .uint16 raid]⟩ f
        = .ok [[.str "/dbus/newpool/path", .int32 0, .str "Ok"]] :=
  fun _ _ _ _ _ _ => rfl

end Stratisd
